import Mathlib

/-!
Shallow embedding of the guided lead-collection conversation of `app.py`
(Telegram sell-car flow): localization lookup `t`, phone validation
`PHONE_RE`, the per-step aiogram message handlers `sell_brand` … `sell_phone`,
the menu callbacks `cb_sell` / `cb_home`, and the admin notification
`notify_admins`.  I/O is made explicit: the per-user FSM state becomes a
`Session` value threaded through the handlers, the database insert and the
per-admin message sends become oracles in an `Env`, and each handler returns
an `Outcome` describing the new session, the messages answered to the user,
the leads inserted, the notifications delivered, and whether an uncaught
exception escaped the handler.
-/

namespace AutoMarket

/-- Characters treated as whitespace by Python's `str.strip()` and by the
regex class `\s` (modelled over the ASCII range, which covers every input
appearing in this development; Python additionally strips some non-ASCII
Unicode whitespace). -/
def pyIsSpace (c : Char) : Bool :=
  c = ' ' || c = '\t' || c = '\n' || c = '\r' || c = '\x0b' || c = '\x0c'

/-- Python `str.strip()` on a character list: drop whitespace from both ends. -/
def pyStripList (l : List Char) : List Char :=
  ((l.dropWhile pyIsSpace).reverse.dropWhile pyIsSpace).reverse

/-- Python `str.strip()`, as used on every inbound reply (`message.text.strip()`). -/
def pyStrip (s : String) : String :=
  ⟨pyStripList s.data⟩

/-- The character class `[\d\s\-()]` of `PHONE_RE` (app.py line 585), with
`\d` modelled as ASCII digits and `\s` as `pyIsSpace`. -/
def phoneClass (c : Char) : Bool :=
  c.isDigit || pyIsSpace c || c = '-' || c = '(' || c = ')'

/-- The part `\d[\d\s\-()]{7,}$` of `PHONE_RE`: one digit followed by at
least seven further characters of the class, reaching the end of the
string. -/
def phoneTail (l : List Char) : Bool :=
  match l with
  | [] => false
  | d :: rest => d.isDigit && decide (7 ≤ rest.length) && rest.all phoneClass

/-- `PHONE_RE = re.compile(r"^\+?\d[\d\s\-()]{7,}$")` applied with
`PHONE_RE.match` to a character list.  The optional `\+?` is deterministic
because `\d` never matches `'+'`; the `$`-before-trailing-newline subtlety of
Python is absorbed because `'\n'` is itself in the repeated class. -/
def phoneMatchList (l : List Char) : Bool :=
  match l with
  | [] => false
  | c :: rest => if c = '+' then phoneTail rest else phoneTail (c :: rest)

/-- `PHONE_RE.match(s)` viewed as a Boolean test on a string. -/
def phoneMatch (s : String) : Bool :=
  phoneMatchList s.data

/-- The `"ru"` table of `I18N` (app.py lines 505-534). -/
def I18N_ru : List (String × String) :=
  [ ("choose_lang", "🌐 Выберите язык / Tilni tanlang"),
    ("menu_title", "✨ Главное меню"),
    ("menu_catalog", "🚗 Каталог авто"),
    ("menu_managers", "📞 Менеджеры"),
    ("menu_sell", "📝 Продать авто"),
    ("menu_site", "🌐 Открыть сайт"),
    ("back", "⬅️ Назад"),
    ("catalog_choose_brand", "🏷️ Выберите бренд:"),
    ("catalog_empty", "Пока нет активных объявлений 😔"),
    ("brand_empty", "По этому бренду пока нет авто 🙌"),
    ("car_contact", "📞 Связаться с менеджером"),
    ("managers_title", "👥 Активные менеджеры:"),
    ("managers_empty", "Активных менеджеров пока нет."),
    ("sell_intro", "📝 Давайте оформим заявку на продажу авто.\nОтвечайте по шагам."),
    ("sell_q_brand", "🏷️ Марка авто (например: Chevrolet):"),
    ("sell_q_model", "🚙 Модель авто (например: Cobalt):"),
    ("sell_q_year", "📅 Год выпуска (например: 2020):"),
    ("sell_q_color", "🎨 Цвет:"),
    ("sell_q_price", "💰 Какую цену хотите?"),
    ("sell_q_condition", "🧰 Состояние (например: отличное/среднее/требует ремонта):"),
    ("sell_q_name", "👤 Ваше имя:"),
    ("sell_q_phone", "📞 Ваш номер телефона (например: +998901234567):"),
    ("sell_done", "✅ Заявка принята! Менеджер свяжется с вами в ближайшее время."),
    ("invalid_phone", "Номер выглядит некорректно. Пример: +998901234567"),
    ("open_site", "Открыть сайт"),
    ("price", "Цена"),
    ("year", "Год"),
    ("no_desc", "Описание отсутствует.") ]

/-- The `"uz"` table of `I18N` (app.py lines 535-564). -/
def I18N_uz : List (String × String) :=
  [ ("choose_lang", "🌐 Tilni tanlang / Выберите язык"),
    ("menu_title", "✨ Asosiy menyu"),
    ("menu_catalog", "🚗 Avto katalogi"),
    ("menu_managers", "📞 Menejerlar"),
    ("menu_sell", "📝 Avto sotish"),
    ("menu_site", "🌐 Saytni ochish"),
    ("back", "⬅️ Orqaga"),
    ("catalog_choose_brand", "🏷️ Brendni tanlang:"),
    ("catalog_empty", "Hozircha faol e\x27lonlar yo‘q 😔"),
    ("brand_empty", "Bu brend bo‘yicha hozircha avto yo‘q 🙌"),
    ("car_contact", "📞 Menejer bilan bog‘lanish"),
    ("managers_title", "👥 Faol menejerlar:"),
    ("managers_empty", "Hozircha faol menejerlar yo‘q."),
    ("sell_intro", "📝 Avto sotish uchun ariza to‘ldiramiz.\nBosqichma-bosqich javob bering."),
    ("sell_q_brand", "🏷️ Avto markasi (masalan: Chevrolet):"),
    ("sell_q_model", "🚙 Avto modeli (masalan: Cobalt):"),
    ("sell_q_year", "📅 Ishlab chiqarilgan yil (masalan: 2020):"),
    ("sell_q_color", "🎨 Rangi:"),
    ("sell_q_price", "💰 Qancha narx xohlaysiz?"),
    ("sell_q_condition", "🧰 Holati (masalan: zo‘r/o‘rtacha/ta\x27mir kerak):"),
    ("sell_q_name", "👤 Ismingiz:"),
    ("sell_q_phone", "📞 Telefon raqamingiz (masalan: +998901234567):"),
    ("sell_done", "✅ Ariza qabul qilindi! Tez orada menejer bog‘lanadi."),
    ("invalid_phone", "Raqam noto‘g‘ri ko‘rinadi. Masalan: +998901234567"),
    ("open_site", "Saytni ochish"),
    ("price", "Narx"),
    ("year", "Yil"),
    ("no_desc", "Tavsif yo‘q.") ]

/-- Python `dict.get(key, key)`: look a key up in a table, falling back to
the key itself. -/
def lookupOrKey (tbl : List (String × String)) (key : String) : String :=
  match tbl.lookup key with
  | some v => v
  | none => key

/-- `t(lang, key)` (app.py lines 568-570): collapse every language other
than `"uz"` to `"ru"`, then look the key up with the key itself as
fallback. -/
def t (lang key : String) : String :=
  if lang = "uz" then lookupOrKey I18N_uz key else lookupOrKey I18N_ru key

/-- The steps of `SellCarFlow` (app.py lines 684-692), one aiogram FSM state
per pending question. -/
inductive SellStep
  | brand
  | model
  | year
  | color
  | price
  | condition
  | name
  | phone
  deriving DecidableEq, Repr

/-- The FSM data written by `state.update_data(...)`: one optional entry per
key that the handlers ever store.  `none` models an absent key, read back by
`data.get(key, "")`. -/
structure FSMData where
  brand_text : Option String := none
  model_text : Option String := none
  year : Option String := none
  color : Option String := none
  price_wanted : Option String := none
  condition : Option String := none
  full_name : Option String := none
  deriving DecidableEq, Repr

/-- One user's aiogram FSM context: the current state (`none` = no active
state, i.e. Idle) and the stored data.  `state.clear()` resets both. -/
structure Session where
  step : Option SellStep
  data : FSMData
  deriving DecidableEq, Repr

/-- One row of the `sell_leads` table (app.py lines 428-441), as inserted by
`sell_phone`. -/
structure Lead where
  lang : String
  full_name : String
  phone : String
  brand_text : String
  model_text : String
  year : String
  color : String
  price_wanted : String
  condition : String
  created_at : String
  status : String
  deriving DecidableEq, Repr

/-- The ambient effects a handler call depends on: whether the
`INSERT INTO sell_leads` succeeds (`insertOk`), which staff chat ids
`bot.send_message` reaches (`sendOk`), `SETTINGS.admin_tg_ids`,
`now_iso()`, and `SETTINGS.public_url`. -/
structure Env where
  insertOk : Bool
  sendOk : Nat → Bool
  admins : List Nat
  nowIso : String
  publicUrl : String

/-- Everything observable about one handler invocation: the session after
the call, the messages answered to the end user, the lead rows inserted,
the staff notifications delivered, and whether an uncaught exception
escaped the handler. -/
structure Outcome where
  session : Session
  replies : List String
  inserted : List Lead
  notified : List (Nat × String)
  raised : Bool
  deriving DecidableEq, Repr

/-- `notify_admins(text)` (app.py lines 618-625): attempt
`bot.send_message(admin_id, text)` for every configured admin, swallowing
every per-send failure; the function is total (it never raises), and its
only observable effect is the set of deliveries that succeeded. -/
def notify_admins (admins : List Nat) (sendOk : Nat → Bool) (text : String) : List (Nat × String) :=
  (admins.filter sendOk).map fun a => (a, text)

/-- The staff notification text built in `sell_phone` (app.py lines
964-973) from the collected data and the validated phone. -/
def leadSummary (publicUrl : String) (d : FSMData) (phone : String) : String :=
  "📝 <b>Новая заявка</b>\n" ++
  "👤 " ++ d.full_name.getD "" ++ "\n" ++
  "📞 <code>" ++ phone ++ "</code>\n" ++
  "🚗 " ++ d.brand_text.getD "" ++ " " ++ d.model_text.getD "" ++ "\n" ++
  "📅 " ++ d.year.getD "" ++ " • 🎨 " ++ d.color.getD "" ++ "\n" ++
  "💰 " ++ d.price_wanted.getD "" ++ "\n" ++
  "🧰 " ++ d.condition.getD "" ++ "\n" ++
  "🌐 " ++ publicUrl ++ "/admin/leads"

/-- The `sell_leads` row assembled in `sell_phone` (app.py lines 941-958):
each text field is read from the FSM data with `data.get(key, "")`, the
phone is the validated stripped reply, `created_at` is `now_iso()`, and
`status` is the SQL literal `'new'`. -/
def mkLead (lang : String) (d : FSMData) (phone nowIso : String) : Lead :=
  { lang := lang
    full_name := d.full_name.getD ""
    phone := phone
    brand_text := d.brand_text.getD ""
    model_text := d.model_text.getD ""
    year := d.year.getD ""
    color := d.color.getD ""
    price_wanted := d.price_wanted.getD ""
    condition := d.condition.getD ""
    created_at := nowIso
    status := "new" }

/-- `cb_sell` (app.py lines 863-869), the `menu:sell` trigger that starts
the flow: `state.clear()` then `state.set_state(SellCarFlow.brand)`, and the
intro plus the brand question is shown. -/
def cb_sell (lang : String) (_s : Session) : Outcome :=
  { session := { step := some SellStep.brand, data := {} }
    replies := [t lang "sell_intro" ++ "\n\n" ++ t lang "sell_q_brand"]
    inserted := []
    notified := []
    raised := false }

/-- `cb_home` (app.py lines 715-719), the target of the back button shown
during the flow (`kb_back` defaults to `menu:home`): it re-renders the main
menu but takes no `FSMContext` argument and touches neither the FSM state
nor the stored data. -/
def cb_home (lang : String) (s : Session) : Outcome :=
  { session := s
    replies := [t lang "menu_title"]
    inserted := []
    notified := []
    raised := false }

/-- `sell_brand` (app.py lines 872-877): store the stripped text under
`brand_text`, advance to `SellCarFlow.model`, answer the model question. -/
def sell_brand (lang text : String) (s : Session) : Outcome :=
  { session := { step := some SellStep.model
                 data := { s.data with brand_text := some (pyStrip text) } }
    replies := [t lang "sell_q_model"]
    inserted := []
    notified := []
    raised := false }

/-- `sell_model` (app.py lines 880-885). -/
def sell_model (lang text : String) (s : Session) : Outcome :=
  { session := { step := some SellStep.year
                 data := { s.data with model_text := some (pyStrip text) } }
    replies := [t lang "sell_q_year"]
    inserted := []
    notified := []
    raised := false }

/-- `sell_year` (app.py lines 888-893). -/
def sell_year (lang text : String) (s : Session) : Outcome :=
  { session := { step := some SellStep.color
                 data := { s.data with year := some (pyStrip text) } }
    replies := [t lang "sell_q_color"]
    inserted := []
    notified := []
    raised := false }

/-- `sell_color` (app.py lines 896-901). -/
def sell_color (lang text : String) (s : Session) : Outcome :=
  { session := { step := some SellStep.price
                 data := { s.data with color := some (pyStrip text) } }
    replies := [t lang "sell_q_price"]
    inserted := []
    notified := []
    raised := false }

/-- `sell_price` (app.py lines 904-909). -/
def sell_price (lang text : String) (s : Session) : Outcome :=
  { session := { step := some SellStep.condition
                 data := { s.data with price_wanted := some (pyStrip text) } }
    replies := [t lang "sell_q_condition"]
    inserted := []
    notified := []
    raised := false }

/-- `sell_condition` (app.py lines 912-917). -/
def sell_condition (lang text : String) (s : Session) : Outcome :=
  { session := { step := some SellStep.name
                 data := { s.data with condition := some (pyStrip text) } }
    replies := [t lang "sell_q_name"]
    inserted := []
    notified := []
    raised := false }

/-- `sell_name` (app.py lines 920-925). -/
def sell_name (lang text : String) (s : Session) : Outcome :=
  { session := { step := some SellStep.phone
                 data := { s.data with full_name := some (pyStrip text) } }
    replies := [t lang "sell_q_phone"]
    inserted := []
    notified := []
    raised := false }

/-- `sell_phone` (app.py lines 928-974).  The stripped reply is matched
against `PHONE_RE`; on failure the handler answers the localized
`invalid_phone` message and returns without touching the state.  On success
the data is snapshotted (`state.get_data()`), the context is cleared
(`state.clear()`), and only then is the insert attempted: if the insert
raises, the exception escapes the handler (`raised := true`) after the
state was already cleared, and neither a reply nor a notification is sent;
if it succeeds, the completion message is answered and the admins are
notified best-effort. -/
def sell_phone (env : Env) (lang text : String) (s : Session) : Outcome :=
  let phone := pyStrip text
  if phoneMatch phone then
    let d := s.data
    let cleared : Session := { step := none, data := {} }
    if env.insertOk then
      { session := cleared
        replies := [t lang "sell_done"]
        inserted := [mkLead lang d phone env.nowIso]
        notified := notify_admins env.admins env.sendOk (leadSummary env.publicUrl d phone)
        raised := false }
    else
      { session := cleared
        replies := []
        inserted := []
        notified := []
        raised := true }
  else
    { session := s
      replies := [t lang "invalid_phone"]
      inserted := []
      notified := []
      raised := false }

/-- Dispatch of one inbound text message to the `SellCarFlow` router
handlers.  Each handler is registered with the `F.text` magic filter, which
passes only when `message.text` is truthy, so an empty text never reaches a
handler; a message arriving with no active FSM state matches no handler at
all.  In both cases nothing happens. -/
def handleText (env : Env) (lang text : String) (s : Session) : Outcome :=
  if text = "" then
    { session := s, replies := [], inserted := [], notified := [], raised := false }
  else
    match s.step with
    | none =>
        { session := s, replies := [], inserted := [], notified := [], raised := false }
    | some SellStep.brand => sell_brand lang text s
    | some SellStep.model => sell_model lang text s
    | some SellStep.year => sell_year lang text s
    | some SellStep.color => sell_color lang text s
    | some SellStep.price => sell_price lang text s
    | some SellStep.condition => sell_condition lang text s
    | some SellStep.name => sell_name lang text s
    | some SellStep.phone => sell_phone env lang text s

/-- Feed a list of text replies one by one, collecting the final session and
every lead inserted along the way. -/
def runTexts (env : Env) (lang : String) (s : Session) : List String → Session × List Lead
  | [] => (s, [])
  | r :: rs =>
      let o := handleText env lang r s
      let res := runTexts env lang o.session rs
      (res.1, o.inserted ++ res.2)

/-- The sequence of FSM states visited while feeding a list of replies,
starting with the initial state and ending with the final one. -/
def stepTrace (env : Env) (lang : String) (s : Session) : List String → List (Option SellStep)
  | [] => [s.step]
  | r :: rs => s.step :: stepTrace env lang (handleText env lang r s).session rs

/-- The successor state stored by the handler of each non-terminal step
(`phone` has no successor: completion clears the state instead). -/
def nextStep : SellStep → Option SellStep
  | SellStep.brand => some SellStep.model
  | SellStep.model => some SellStep.year
  | SellStep.year => some SellStep.color
  | SellStep.color => some SellStep.price
  | SellStep.price => some SellStep.condition
  | SellStep.condition => some SellStep.name
  | SellStep.name => some SellStep.phone
  | SellStep.phone => none

/-- The FSM data field written at each step (`phone` writes no field: the
validated phone goes straight into the lead row). -/
def fieldOf (d : FSMData) : SellStep → Option String
  | SellStep.brand => d.brand_text
  | SellStep.model => d.model_text
  | SellStep.year => d.year
  | SellStep.color => d.color
  | SellStep.price => d.price_wanted
  | SellStep.condition => d.condition
  | SellStep.name => d.full_name
  | SellStep.phone => none

/-- A string has no leading and no trailing whitespace. -/
def noEdgeWS (s : String) : Prop :=
  (∀ c, s.data.head? = some c → pyIsSpace c = false) ∧
  (∀ c, s.data.getLast? = some c → pyIsSpace c = false)

/-- Modelled from the spec's words (§4.1, "Phone validation rule"), as the
claim states it: an optional leading `+`, then one digit, then at least 7
more characters each of which is a digit, a space, a hyphen, or a
parenthesis. -/
def specPhoneRule (s : String) : Bool :=
  let body := if s.data.head? = some '+' then s.data.tail else s.data
  match body with
  | [] => false
  | d :: rest =>
      d.isDigit && decide (7 ≤ rest.length) &&
        rest.all (fun c => c.isDigit || c = ' ' || c = '-' || c = '(' || c = ')')

/-- The same rule with "space" widened to the whitespace class the regex
`\s` actually uses. -/
def specPhoneRuleWs (s : String) : Bool :=
  let body := if s.data.head? = some '+' then s.data.tail else s.data
  match body with
  | [] => false
  | d :: rest =>
      d.isDigit && decide (7 ≤ rest.length) &&
        rest.all (fun c => c.isDigit || pyIsSpace c || c = '-' || c = '(' || c = ')')

/-- A concrete environment for witnesses: insert succeeds, one admin,
deliveries succeed. -/
def envW : Env :=
  { insertOk := true
    sendOk := fun _ => true
    admins := [77]
    nowIso := "2026-01-01T00:00:00+00:00"
    publicUrl := "https://example.onrender.com" }

/-- The session `cb_sell` installs: state `brand`, empty data. -/
def startSession : Session :=
  { step := some SellStep.brand, data := {} }

/-- The fully collected data of the spec's concrete scenario (§8). -/
def dataAli : FSMData :=
  { brand_text := some "Chevrolet"
    model_text := some "Cobalt"
    year := some "2020"
    color := some "white"
    price_wanted := some "15000"
    condition := some "good"
    full_name := some "Ali" }

/-! Helper lemmas. -/

/-- The head of `dropWhile p l` never satisfies `p`. -/
theorem head?_dropWhile_not (p : Char → Bool) (l : List Char) :
    ∀ c, (l.dropWhile p).head? = some c → p c = false := by
  induction l with
  | nil => intro c h; exact Option.noConfusion h
  | cons a as ih =>
      intro c h
      rw [List.dropWhile_cons] at h
      by_cases hp : p a
      · exact ih c (by simpa [hp] using h)
      · rw [if_neg hp, List.head?_cons] at h
        have hac := Option.some.inj h
        simp only [Bool.not_eq_true] at hp
        rw [← hac]
        exact hp

/-- `dropWhile` keeps the last element when its result is non-empty. -/
theorem getLast?_dropWhile (p : Char → Bool) (l : List Char)
    (h : l.dropWhile p ≠ []) : (l.dropWhile p).getLast? = l.getLast? := by
  induction l with
  | nil => simp at h
  | cons a as ih =>
      rw [List.dropWhile_cons] at h ⊢
      by_cases hp : p a
      · rw [if_pos hp] at h ⊢
        rw [ih h]
        cases as with
        | nil => simp at h
        | cons b bs => simp [List.getLast?_cons_cons]
      · rw [if_neg hp]

/-- `pyStrip` output has no leading and no trailing whitespace. -/
theorem pyStrip_noEdge (s : String) : noEdgeWS (pyStrip s) := by
  unfold noEdgeWS pyStrip pyStripList
  set m := s.data.dropWhile pyIsSpace with hm
  set q := m.reverse.dropWhile pyIsSpace with hq
  constructor
  · intro c h
    simp only [String.data] at h
    have hq0 : q ≠ [] := by
      intro h0
      rw [h0] at h
      simp at h
    have h1 : q.getLast? = m.reverse.getLast? := getLast?_dropWhile _ _ hq0
    have h2 : m.reverse.getLast? = m.head? := List.getLast?_reverse m
    have h3 : q.reverse.head? = q.getLast? := List.head?_reverse q
    rw [h3, h1, h2] at h
    exact head?_dropWhile_not pyIsSpace s.data c h
  · intro c h
    simp only [String.data] at h
    rw [List.getLast?_reverse] at h
    exact head?_dropWhile_not pyIsSpace m.reverse c h

/-- A string matched by `PHONE_RE` is non-empty. -/
theorem phoneMatch_true_ne_empty {s : String} (h : phoneMatch s = true) : s ≠ "" := by
  intro he
  subst he
  exact absurd h (by decide)

/-! Claim theorems. -/

/-- C9: the localization lookup collapses every language other than `"uz"`
to `"ru"`: for every `lang ≠ "uz"` and every key, `t lang key = t "ru" key`,
so an unknown language preference silently yields Russian text. -/
theorem t_collapses_to_ru (lang key : String) (h : lang ≠ "uz") :
    t lang key = t "ru" key := by
  unfold t
  rw [if_neg h, if_neg (by decide : ¬("ru" : String) = "uz")]

/-- Witness for C9 at the concrete unknown language `"en"`. -/
theorem t_collapses_to_ru_w : t "en" "invalid_phone" = t "ru" "invalid_phone" :=
  t_collapses_to_ru "en" "invalid_phone" (by decide)

/-- C2: a reply whose stripped text fails the phone validation at the
`phone` step leaves the session (step and collected fields) unchanged,
inserts no lead, and answers exactly the localized `invalid_phone` message
for the user's language. -/
theorem invalid_phone_rejected (env : Env) (lang text : String) (s : Session)
    (hstep : s.step = some SellStep.phone) (htext : text ≠ "")
    (hph : phoneMatch (pyStrip text) = false) :
    handleText env lang text s =
      { session := s, replies := [t lang "invalid_phone"], inserted := [],
        notified := [], raised := false } := by
  simp [handleText, htext, hstep, sell_phone, hph]

/-- Witness for C2: the reply `"abc"` at the `phone` step, in Russian. -/
theorem invalid_phone_rejected_w :
    handleText envW "ru" "abc" { step := some SellStep.phone, data := dataAli } =
      { session := { step := some SellStep.phone, data := dataAli },
        replies := ["Номер выглядит некорректно. Пример: +998901234567"],
        inserted := [], notified := [], raised := false } :=
  (invalid_phone_rejected envW "ru" "abc"
      { step := some SellStep.phone, data := dataAli } rfl (by decide) (by decide)).trans
    (by decide)

/-- C4 (code evaluation): the `menu:home` callback — the target of the back
button shown during the sell flow — returns the session exactly as it was:
it neither resets the step to Idle nor clears the collected fields. -/
theorem cb_home_preserves_session (lang : String) (s : Session) :
    (cb_home lang s).session = s :=
  rfl

/-- C5 (code evaluation): with the collected data of the spec's concrete
scenario and a failing insert, the valid phone reply leaves the session
cleared (step `none`, data empty), answers nothing to the user, inserts
nothing, and lets the exception escape: the collected fields are lost and no
retry-worthy error is surfaced. -/
theorem persist_failure_loses_data :
    handleText { envW with insertOk := false } "ru" "+998901234567"
        { step := some SellStep.phone, data := dataAli } =
      { session := { step := none, data := {} }, replies := [], inserted := [],
        notified := [], raised := true } := by
  decide

/-- C6 counterexample: the trimmed string `"+1\t234567"` is accepted by
`PHONE_RE` (its class `\s` matches the tab) but rejected by the claimed rule
whose extra characters are only digits, spaces, hyphens, or parentheses. -/
theorem phone_rule_tab_cex :
    phoneMatch "+1\t234567" = true ∧ specPhoneRule "+1\t234567" = false ∧
    pyStrip "+1\t234567" = "+1\t234567" := by
  decide

/-- C6 amended: the phone validation accepts a string if and only if it is
an optional leading `+`, one digit, and at least 7 more characters each of
which is a digit, a whitespace character (space, tab, newline, carriage
return, vertical tab, or form feed), a hyphen, or a parenthesis. -/
theorem phoneMatch_eq_specWs (s : String) : phoneMatch s = specPhoneRuleWs s := by
  obtain ⟨l⟩ := s
  show phoneMatchList l = specPhoneRuleWs ⟨l⟩
  cases l with
  | nil => rfl
  | cons c rest =>
      by_cases hc : c = '+'
      · subst hc
        have h1 : phoneMatchList ('+' :: rest) = phoneTail rest := by
          simp [phoneMatchList]
        have h2 : specPhoneRuleWs ⟨'+' :: rest⟩ = phoneTail rest := by
          unfold specPhoneRuleWs
          simp only [List.head?_cons, List.tail_cons, if_true]
          cases rest with
          | nil => rfl
          | cons d tail => rfl
        rw [h1, h2]
      · have h1 : phoneMatchList (c :: rest) = phoneTail (c :: rest) := by
          simp [phoneMatchList, hc]
        have h2 : specPhoneRuleWs ⟨c :: rest⟩ = phoneTail (c :: rest) := by
          unfold specPhoneRuleWs
          simp only [List.head?_cons]
          rw [if_neg (fun h => hc (Option.some.inj h))]
          rfl
        rw [h1, h2]

/-- C3 counterexample: at the `brand` step the whitespace-only reply `" "`
is handled (the `F.text` filter only requires truthiness), the step advances
to `model`, and the collected fields are mutated — the empty stripped string
is stored. -/
theorem whitespace_reply_advances_cex :
    (" " : String).data.all pyIsSpace = true ∧
    (handleText envW "ru" " " startSession).session.step = some SellStep.model ∧
    (handleText envW "ru" " " startSession).session.data.brand_text = some "" ∧
    (handleText envW "ru" " " startSession).session.data ≠ startSession.data := by
  decide

/-- C3 amended: an empty reply never reaches a handler (the `F.text` filter
rejects it) and changes nothing, but any non-empty reply — including a
whitespace-only one — at a non-terminal step is accepted: its stripped text
(possibly empty) is stored in the step's field and the step advances. -/
theorem reply_handling_amended (env : Env) (lang text : String) (s : Session)
    (st : SellStep) (hstep : s.step = some st) (hst : st ≠ SellStep.phone) :
    (text = "" →
      handleText env lang text s =
        { session := s, replies := [], inserted := [], notified := [], raised := false }) ∧
    (text ≠ "" →
      (handleText env lang text s).session.step = nextStep st ∧
      fieldOf (handleText env lang text s).session.data st = some (pyStrip text) ∧
      (handleText env lang text s).inserted = []) := by
  constructor
  · intro h
    simp [handleText, h]
  · intro h
    cases st with
    | phone => exact absurd rfl hst
    | brand =>
        simp [handleText, h, hstep, sell_brand, nextStep, fieldOf]
    | model =>
        simp [handleText, h, hstep, sell_model, nextStep, fieldOf]
    | year =>
        simp [handleText, h, hstep, sell_year, nextStep, fieldOf]
    | color =>
        simp [handleText, h, hstep, sell_color, nextStep, fieldOf]
    | price =>
        simp [handleText, h, hstep, sell_price, nextStep, fieldOf]
    | condition =>
        simp [handleText, h, hstep, sell_condition, nextStep, fieldOf]
    | name =>
        simp [handleText, h, hstep, sell_name, nextStep, fieldOf]

/-- Witness for the amended C3: the reply `" Chevrolet "` at the `brand`
step stores the stripped value `"Chevrolet"`. -/
theorem reply_handling_amended_w :
    fieldOf (handleText envW "ru" " Chevrolet " startSession).session.data SellStep.brand =
      some "Chevrolet" := by
  have h := (reply_handling_amended envW "ru" " Chevrolet " startSession SellStep.brand rfl
      (by decide)).2 (by decide)
  exact h.2.1.trans (by decide)

/-- C7 counterexample: completing the flow with the whitespace-only reply
`" "` at the brand step persists exactly one lead whose `brand_text` is the
empty string, so not every text field of a persisted lead is non-empty. -/
theorem empty_field_lead_cex :
    ((runTexts envW "ru" startSession
        [" ", "Cobalt", "2020", "white", "15000", "good", "Ali", "+998901234567"]).2.map
      Lead.brand_text) = [""] := by
  decide

/-- C7 amended: every lead the handlers ever insert has a phone that
satisfies the phone-shape rule (hence is non-empty) and the status literal
`"new"`; the remaining text fields are the stripped replies collected and
may be empty when a whitespace-only reply was accepted. -/
theorem lead_phone_invariant (env : Env) (lang text : String) (s : Session) (l : Lead)
    (hl : l ∈ (handleText env lang text s).inserted) :
    phoneMatch l.phone = true ∧ l.phone ≠ "" ∧ l.status = "new" := by
  by_cases ht : text = ""
  · simp [handleText, ht] at hl
  · cases hs : s.step with
    | none => simp [handleText, ht, hs] at hl
    | some st =>
        cases st with
        | brand => simp [handleText, ht, hs, sell_brand] at hl
        | model => simp [handleText, ht, hs, sell_model] at hl
        | year => simp [handleText, ht, hs, sell_year] at hl
        | color => simp [handleText, ht, hs, sell_color] at hl
        | price => simp [handleText, ht, hs, sell_price] at hl
        | condition => simp [handleText, ht, hs, sell_condition] at hl
        | name => simp [handleText, ht, hs, sell_name] at hl
        | phone =>
            by_cases hph : phoneMatch (pyStrip text)
            · by_cases hins : env.insertOk
              · simp [handleText, ht, hs, sell_phone, hph, hins] at hl
                subst hl
                exact ⟨hph, phoneMatch_true_ne_empty hph, rfl⟩
              · simp [handleText, ht, hs, sell_phone, hph, hins] at hl
            · simp [handleText, ht, hs, sell_phone, hph] at hl

/-- Witness for the amended C7 at the spec's concrete completed lead. -/
theorem lead_phone_invariant_w :
    phoneMatch (mkLead "ru" dataAli "+998901234567" envW.nowIso).phone = true ∧
    (mkLead "ru" dataAli "+998901234567" envW.nowIso).phone ≠ "" ∧
    (mkLead "ru" dataAli "+998901234567" envW.nowIso).status = "new" :=
  lead_phone_invariant envW "ru" "+998901234567"
    { step := some SellStep.phone, data := dataAli }
    (mkLead "ru" dataAli "+998901234567" envW.nowIso) (by decide)

/-- C8: when a valid phone completes the flow and the insert succeeds, the
handler raises no error and inserts exactly one lead, and neither the
inserted leads nor the absence of an escaping error depends in any way on
which staff notification deliveries succeed: per-admin send failures are
swallowed inside `notify_admins`. -/
theorem notify_failures_swallowed (env : Env) (lang text : String) (s : Session)
    (hstep : s.step = some SellStep.phone) (hok : env.insertOk = true)
    (hph : phoneMatch (pyStrip text) = true) :
    (handleText env lang text s).raised = false ∧
    (handleText env lang text s).inserted = [mkLead lang s.data (pyStrip text) env.nowIso] ∧
    ∀ f : Nat → Bool,
      (handleText { env with sendOk := f } lang text s).inserted =
        (handleText env lang text s).inserted ∧
      (handleText { env with sendOk := f } lang text s).raised = false := by
  have ht : text ≠ "" := by
    intro he
    subst he
    exact absurd hph (by decide)
  refine ⟨?_, ?_, fun f => ⟨?_, ?_⟩⟩ <;>
    simp [handleText, ht, hstep, sell_phone, hph, hok]

/-- Witness for C8: delivery to every admin fails, yet the lead is inserted
exactly once and nothing is raised. -/
theorem notify_failures_swallowed_w :
    (handleText { envW with sendOk := fun _ => false } "ru" "+998901234567"
        { step := some SellStep.phone, data := dataAli }).inserted =
      [mkLead "ru" dataAli "+998901234567" envW.nowIso] := by
  have h := notify_failures_swallowed envW "ru" "+998901234567"
      { step := some SellStep.phone, data := dataAli } rfl rfl (by decide)
  have h3 := (h.2.2 (fun _ => false)).1
  rw [h3, h.2.1]
  decide

/-- C10: any collected-field value that a handler call changes to a present
value is exactly the stripped reply text, as is the phone of any inserted
lead, and the stripped text never carries leading or trailing whitespace. -/
theorem stored_fields_trimmed (env : Env) (lang text : String) (s : Session) :
    (∀ st v, fieldOf (handleText env lang text s).session.data st = some v →
        fieldOf s.data st ≠ some v → v = pyStrip text ∧ noEdgeWS v) ∧
    ∀ l ∈ (handleText env lang text s).inserted,
      l.phone = pyStrip text ∧ noEdgeWS l.phone := by
  have hno : noEdgeWS (pyStrip text) := pyStrip_noEdge text
  by_cases ht : text = ""
  · refine ⟨fun st v h1 h2 => absurd ?_ h2, fun l hl => absurd hl ?_⟩
    · simpa [handleText, ht] using h1
    · simp [handleText, ht]
  · cases hs : s.step with
    | none =>
        refine ⟨fun st v h1 h2 => absurd ?_ h2, fun l hl => absurd hl ?_⟩
        · simpa [handleText, ht, hs] using h1
        · simp [handleText, ht, hs]
    | some st0 =>
        cases st0 with
        | phone =>
            refine ⟨fun st v h1 h2 => ?_, fun l hl => ?_⟩
            · by_cases hph : phoneMatch (pyStrip text)
              · by_cases hins : env.insertOk <;>
                  · simp [handleText, ht, hs, sell_phone, hph, hins] at h1
                    cases st <;> simp [fieldOf] at h1
              · simp [handleText, ht, hs, sell_phone, hph] at h1
                exact absurd h1 h2
            · by_cases hph : phoneMatch (pyStrip text)
              · by_cases hins : env.insertOk
                · simp [handleText, ht, hs, sell_phone, hph, hins] at hl
                  subst hl
                  exact ⟨rfl, hno⟩
                · simp [handleText, ht, hs, sell_phone, hph, hins] at hl
              · simp [handleText, ht, hs, sell_phone, hph] at hl
        | brand =>
            refine ⟨fun st v h1 h2 => ?_, fun l hl => ?_⟩
            · cases st <;>
                simp [handleText, ht, hs, sell_brand, fieldOf] at h1 h2 <;>
                first
                  | exact absurd h1 h2
                  | exact ⟨h1.symm, h1 ▸ hno⟩
            · simp [handleText, ht, hs, sell_brand] at hl
        | model =>
            refine ⟨fun st v h1 h2 => ?_, fun l hl => ?_⟩
            · cases st <;>
                simp [handleText, ht, hs, sell_model, fieldOf] at h1 h2 <;>
                first
                  | exact absurd h1 h2
                  | exact ⟨h1.symm, h1 ▸ hno⟩
            · simp [handleText, ht, hs, sell_model] at hl
        | year =>
            refine ⟨fun st v h1 h2 => ?_, fun l hl => ?_⟩
            · cases st <;>
                simp [handleText, ht, hs, sell_year, fieldOf] at h1 h2 <;>
                first
                  | exact absurd h1 h2
                  | exact ⟨h1.symm, h1 ▸ hno⟩
            · simp [handleText, ht, hs, sell_year] at hl
        | color =>
            refine ⟨fun st v h1 h2 => ?_, fun l hl => ?_⟩
            · cases st <;>
                simp [handleText, ht, hs, sell_color, fieldOf] at h1 h2 <;>
                first
                  | exact absurd h1 h2
                  | exact ⟨h1.symm, h1 ▸ hno⟩
            · simp [handleText, ht, hs, sell_color] at hl
        | price =>
            refine ⟨fun st v h1 h2 => ?_, fun l hl => ?_⟩
            · cases st <;>
                simp [handleText, ht, hs, sell_price, fieldOf] at h1 h2 <;>
                first
                  | exact absurd h1 h2
                  | exact ⟨h1.symm, h1 ▸ hno⟩
            · simp [handleText, ht, hs, sell_price] at hl
        | condition =>
            refine ⟨fun st v h1 h2 => ?_, fun l hl => ?_⟩
            · cases st <;>
                simp [handleText, ht, hs, sell_condition, fieldOf] at h1 h2 <;>
                first
                  | exact absurd h1 h2
                  | exact ⟨h1.symm, h1 ▸ hno⟩
            · simp [handleText, ht, hs, sell_condition] at hl
        | name =>
            refine ⟨fun st v h1 h2 => ?_, fun l hl => ?_⟩
            · cases st <;>
                simp [handleText, ht, hs, sell_name, fieldOf] at h1 h2 <;>
                first
                  | exact absurd h1 h2
                  | exact ⟨h1.symm, h1 ▸ hno⟩
            · simp [handleText, ht, hs, sell_name] at hl

/-- Witness for C10: the reply `" Ali "` at the `name` step stores exactly
`"Ali"`, which is the stripped text and has no edge whitespace. -/
theorem stored_fields_trimmed_w :
    ("Ali" : String) = pyStrip " Ali " ∧ noEdgeWS "Ali" := by
  have h := (stored_fields_trimmed envW "ru" " Ali "
      { step := some SellStep.name, data := {} }).1 SellStep.name "Ali" (by decide) (by decide)
  exact h

/-- C1: from the state installed by the start-sell-flow trigger, any
sequence of eight non-empty replies ending in a reply whose stripped text
passes the phone validation visits `brand` … `phone` in order, each exactly
once, ends with the FSM cleared (Idle), and inserts exactly one lead whose
fields are the stripped replies in collection order with the status literal
`"new"`. -/
theorem happy_path_complete (env : Env) (lang : String) (s0 : Session)
    (b m y c p q n ph : String) (hok : env.insertOk = true)
    (hb : b ≠ "") (hm : m ≠ "") (hy : y ≠ "") (hc : c ≠ "")
    (hp : p ≠ "") (hq : q ≠ "") (hn : n ≠ "") (hph0 : ph ≠ "")
    (hph : phoneMatch (pyStrip ph) = true) :
    stepTrace env lang (cb_sell lang s0).session [b, m, y, c, p, q, n, ph] =
      [some SellStep.brand, some SellStep.model, some SellStep.year, some SellStep.color,
       some SellStep.price, some SellStep.condition, some SellStep.name, some SellStep.phone,
       none] ∧
    runTexts env lang (cb_sell lang s0).session [b, m, y, c, p, q, n, ph] =
      ({ step := none, data := {} },
       [{ lang := lang, full_name := pyStrip n, phone := pyStrip ph, brand_text := pyStrip b,
          model_text := pyStrip m, year := pyStrip y, color := pyStrip c,
          price_wanted := pyStrip p, condition := pyStrip q, created_at := env.nowIso,
          status := "new" }]) := by
  constructor <;>
    simp [cb_sell, stepTrace, runTexts, handleText, sell_brand, sell_model, sell_year,
      sell_color, sell_price, sell_condition, sell_name, sell_phone, mkLead,
      hb, hm, hy, hc, hp, hq, hn, hph0, hph, hok]

/-- Witness for C1: the spec's concrete scenario, in Russian. -/
theorem happy_path_complete_w :
    runTexts envW "ru" (cb_sell "ru" { step := none, data := {} }).session
        ["Chevrolet", "Cobalt", "2020", "white", "15000", "good", "Ali", "+998901234567"] =
      ({ step := none, data := {} },
       [{ lang := "ru", full_name := "Ali", phone := "+998901234567",
          brand_text := "Chevrolet", model_text := "Cobalt", year := "2020", color := "white",
          price_wanted := "15000", condition := "good", created_at := envW.nowIso,
          status := "new" }]) := by
  have h := (happy_path_complete envW "ru" { step := none, data := {} }
      "Chevrolet" "Cobalt" "2020" "white" "15000" "good" "Ali" "+998901234567"
      rfl (by decide) (by decide) (by decide) (by decide) (by decide) (by decide) (by decide)
      (by decide) (by decide)).2
  exact h.trans (by decide)

end AutoMarket
